import Mathlib

set_option maxRecDepth 100000

/-!
Verification of the serum-rs client codec against its specification.

The development shallowly embeds the two source files:
* `src/instruction.rs` — the instruction encoder (`init_account`, `swap`,
  `swap_transitive`, `close_account`), in namespace `SerumRs.Instr`;
* `src/market.rs` — the market-account decoder
  (`remove_dex_account_padding`, `Market::deserialize`, `Market::pubkeys`,
  `get_market_keys`), in namespace `SerumRs.Mkt`.

Machine integers are embedded as `Nat` with explicit `% 2^w` at
serialization boundaries.  Fallible Rust code returns `Except`; code that
can additionally panic (out-of-range slicing, `assert_eq!`) returns
`Outcome`, whose `panic` constructor marks a Rust panic.
-/

namespace SerumRs

/-- Little-endian serialization of a `u64` into 8 bytes (`n % 2^64` is what
the 8 limbs encode). -/
def u64le (n : Nat) : List Nat :=
  [n % 256, n / 2 ^ 8 % 256, n / 2 ^ 16 % 256, n / 2 ^ 24 % 256,
   n / 2 ^ 32 % 256, n / 2 ^ 40 % 256, n / 2 ^ 48 % 256, n / 2 ^ 56 % 256]

/-- Serialization of a `u8` as one byte. -/
def u8byte (n : Nat) : Nat := n % 256

/-- Borsh serialization of a `bool` as one byte. -/
def boolByte (b : Bool) : Nat := if b then 1 else 0

/-- Little-endian value of a byte list (inverse direction of `u64le` on
8-byte lists). -/
def leWord (bs : List Nat) : Nat :=
  bs.foldr (fun b acc => b % 256 + 256 * acc) 0

namespace Instr

/-- `solana_program::pubkey::Pubkey`: an opaque 32-byte address.  The
instruction encoder never looks inside a pubkey, so it is embedded as an
abstract atom. -/
abbrev Pubkey := Nat

/-- `solana_program::instruction::AccountMeta`. -/
structure AccountMeta where
  pubkey : Pubkey
  is_signer : Bool
  is_writable : Bool
  deriving DecidableEq

/-- `AccountMeta::new(pubkey, is_signer)`: a writable account reference. -/
def AccountMeta.new (pubkey : Pubkey) (is_signer : Bool) : AccountMeta :=
  ⟨pubkey, is_signer, true⟩

/-- `AccountMeta::new_readonly(pubkey, is_signer)`: a read-only account
reference. -/
def AccountMeta.new_readonly (pubkey : Pubkey) (is_signer : Bool) : AccountMeta :=
  ⟨pubkey, is_signer, false⟩

/-- `spl_token::id()`: the SPL token program address, a fixed external
constant whose 32-byte value no claim depends on; embedded as a distinct
abstract atom. -/
def spl_token_id : Pubkey := 1000001

/-- `sysvar::rent::id()`: the rent sysvar address, likewise a fixed external
constant embedded as a distinct abstract atom. -/
def rent_sysvar_id : Pubkey := 1000002

/-- `serum_swap::Side`. -/
inductive Side where
  | Bid
  | Ask
  deriving DecidableEq

/-- Borsh tag byte of a `Side` value (declaration order: `Bid` = 0,
`Ask` = 1; pinned by the repository's `serialize_instruction` test, whose
payload for `Side::Ask` carries tag byte 1). -/
def sideByte : Side → Nat
  | Side.Bid => 0
  | Side.Ask => 1

/-- `serum_swap::ExchangeRate`, field order as serialized. -/
structure ExchangeRate where
  rate : Nat
  from_decimals : Nat
  quote_decimals : Nat
  strict : Bool
  deriving DecidableEq

/-- Borsh serialization of an `ExchangeRate`: `rate` as a little-endian
`u64`, then `from_decimals` and `quote_decimals` as single bytes, then
`strict` as a bool byte.  Field order is pinned by the repository's
`serialize_instruction` test. -/
def exchangeRateBytes (r : ExchangeRate) : List Nat :=
  u64le r.rate ++ [u8byte r.from_decimals, u8byte r.quote_decimals, boolByte r.strict]

/-- Anchor discriminant of `instruction::InitAccount`, pinned byte-for-byte
by the repository's `serialize_instruction` test. -/
def initAccountSighash : List Nat := [169, 188, 158, 199, 9, 151, 101, 125]

/-- Anchor discriminant of `instruction::Swap`, pinned byte-for-byte by the
repository's `serialize_instruction` test. -/
def swapSighash : List Nat := [248, 198, 158, 145, 225, 117, 135, 200]

/-- Anchor discriminant of `instruction::SwapTransitive`.  Modelled from the
spec: the payload starts with "a discriminant tag (fixed-width identifier
unique per call shape, matching the remote program's dispatch table)"; the
anchor scheme (first 8 bytes of the SHA-256 of the namespaced method name)
reproduces both discriminants pinned by the repository's test, and these are
its bytes for this call shape. -/
def swapTransitiveSighash : List Nat := [129, 109, 254, 207, 31, 192, 47, 51]

/-- Anchor discriminant of `instruction::CloseAccount`, derived by the same
scheme as `swapTransitiveSighash`. -/
def closeAccountSighash : List Nat := [125, 255, 149, 14, 110, 34, 72, 24]

/-- `instruction::InitAccount.data()`: the bare discriminant, no
arguments. -/
def initAccountData : List Nat := initAccountSighash

/-- `instruction::Swap { side, amount, min_exchange_rate }.data()`:
discriminant, then the fields in declared order. -/
def swapData (side : Side) (amount : Nat) (min_exchange_rate : ExchangeRate) : List Nat :=
  swapSighash ++ sideByte side :: (u64le amount ++ exchangeRateBytes min_exchange_rate)

/-- `instruction::SwapTransitive { amount, min_exchange_rate }.data()`:
discriminant, then the fields in declared order. -/
def swapTransitiveData (amount : Nat) (min_exchange_rate : ExchangeRate) : List Nat :=
  swapTransitiveSighash ++ (u64le amount ++ exchangeRateBytes min_exchange_rate)

/-- `instruction::CloseAccount.data()`: the bare discriminant, no
arguments. -/
def closeAccountData : List Nat := closeAccountSighash

/-- `MarketAccounts` (src/instruction.rs lines 9–37). -/
structure MarketAccounts where
  market : Pubkey
  open_orders : Pubkey
  request_queue : Pubkey
  event_queue : Pubkey
  bids : Pubkey
  asks : Pubkey
  order_payer_token_account : Pubkey
  coin_vault : Pubkey
  pc_vault : Pubkey
  vault_signer : Pubkey
  coin_wallet : Pubkey
  deriving DecidableEq

/-- `solana_program::instruction::Instruction`. -/
structure Instruction where
  program_id : Pubkey
  accounts : List AccountMeta
  data : List Nat
  deriving DecidableEq

/-- `init_account` (src/instruction.rs lines 39–58). -/
def init_account (swap_program_id dex_program_id authority market open_orders : Pubkey) :
    Instruction :=
  { program_id := swap_program_id
    accounts := [
      AccountMeta.new open_orders false,
      AccountMeta.new_readonly authority true,
      AccountMeta.new_readonly market false,
      AccountMeta.new_readonly dex_program_id false,
      AccountMeta.new_readonly rent_sysvar_id false]
    data := initAccountData }

/-- `swap` (src/instruction.rs lines 60–104). -/
def swap (swap_program_id dex_program_id authority pc_wallet : Pubkey)
    (market : MarketAccounts) (amount : Nat) (side : Side) (rate : Nat)
    (from_decimals : Nat) : Instruction :=
  { program_id := swap_program_id
    accounts := [
      AccountMeta.new market.market false,
      AccountMeta.new market.open_orders false,
      AccountMeta.new market.request_queue false,
      AccountMeta.new market.event_queue false,
      AccountMeta.new market.bids false,
      AccountMeta.new market.asks false,
      AccountMeta.new market.order_payer_token_account false,
      AccountMeta.new market.coin_vault false,
      AccountMeta.new market.pc_vault false,
      AccountMeta.new_readonly market.vault_signer false,
      AccountMeta.new market.coin_wallet false,
      AccountMeta.new_readonly authority true,
      AccountMeta.new pc_wallet false,
      AccountMeta.new_readonly dex_program_id false,
      AccountMeta.new_readonly spl_token_id false,
      AccountMeta.new_readonly spl_token_id false]
    data := swapData side amount
      { rate := rate, from_decimals := from_decimals, quote_decimals := 0, strict := false } }

/-- `swap_transitive` (src/instruction.rs lines 106–162). -/
def swap_transitive (swap_program_id dex_program_id authority pc_wallet : Pubkey)
    (f t : MarketAccounts) (amount rate from_decimals quote_decimals : Nat)
    (strict : Bool) : Instruction :=
  { program_id := swap_program_id
    accounts := [
      AccountMeta.new f.market false,
      AccountMeta.new f.open_orders false,
      AccountMeta.new f.request_queue false,
      AccountMeta.new f.event_queue false,
      AccountMeta.new f.bids false,
      AccountMeta.new f.asks false,
      AccountMeta.new f.order_payer_token_account false,
      AccountMeta.new f.coin_vault false,
      AccountMeta.new f.pc_vault false,
      AccountMeta.new_readonly f.vault_signer false,
      AccountMeta.new f.coin_wallet false,
      AccountMeta.new t.market false,
      AccountMeta.new t.open_orders false,
      AccountMeta.new t.request_queue false,
      AccountMeta.new t.event_queue false,
      AccountMeta.new t.bids false,
      AccountMeta.new t.asks false,
      AccountMeta.new t.order_payer_token_account false,
      AccountMeta.new t.coin_vault false,
      AccountMeta.new t.pc_vault false,
      AccountMeta.new_readonly t.vault_signer false,
      AccountMeta.new t.coin_wallet false,
      AccountMeta.new_readonly authority true,
      AccountMeta.new pc_wallet false,
      AccountMeta.new_readonly dex_program_id false,
      AccountMeta.new_readonly spl_token_id false,
      AccountMeta.new_readonly spl_token_id false]
    data := swapTransitiveData amount
      { rate := rate, from_decimals := from_decimals,
        quote_decimals := quote_decimals, strict := strict } }

/-- `close_account` (src/instruction.rs lines 164–184). -/
def close_account (swap_program_id dex_program_id authority market open_orders destination : Pubkey) :
    Instruction :=
  { program_id := swap_program_id
    accounts := [
      AccountMeta.new open_orders false,
      AccountMeta.new_readonly authority true,
      AccountMeta.new destination false,
      AccountMeta.new_readonly market false,
      AccountMeta.new_readonly dex_program_id false]
    data := closeAccountData }

/-- The 11-entry single-market account block of §4.2: the shape shared by
`swap`'s prefix and each half of `swap_transitive`'s doubled block. -/
def marketBlock (m : MarketAccounts) : List AccountMeta :=
  [AccountMeta.new m.market false,
   AccountMeta.new m.open_orders false,
   AccountMeta.new m.request_queue false,
   AccountMeta.new m.event_queue false,
   AccountMeta.new m.bids false,
   AccountMeta.new m.asks false,
   AccountMeta.new m.order_payer_token_account false,
   AccountMeta.new m.coin_vault false,
   AccountMeta.new m.pc_vault false,
   AccountMeta.new_readonly m.vault_signer false,
   AccountMeta.new m.coin_wallet false]

/-- Claim C1: for every input, the account-reference list of the
instruction returned by `swap` has exactly the count and order of §4.2
(this generation carries the token program twice and no rent sysvar) with
the writable/read-only and signer/non-signer flags exactly as listed —
market through coin_wallet writable except the read-only vault_signer, the
authority read-only and sole signer, the quote wallet writable, the
exchange program and token program read-only — and the payload's first
field after the 8-byte discriminant is the borsh tag of the `side`
argument. -/
theorem swap_account_list_and_side (swap_program_id dex_program_id authority pc_wallet : Pubkey)
    (m : MarketAccounts) (amount : Nat) (side : Side) (rate from_decimals : Nat) :
    (swap swap_program_id dex_program_id authority pc_wallet m amount side rate
        from_decimals).accounts =
      [AccountMeta.mk m.market false true,
       AccountMeta.mk m.open_orders false true,
       AccountMeta.mk m.request_queue false true,
       AccountMeta.mk m.event_queue false true,
       AccountMeta.mk m.bids false true,
       AccountMeta.mk m.asks false true,
       AccountMeta.mk m.order_payer_token_account false true,
       AccountMeta.mk m.coin_vault false true,
       AccountMeta.mk m.pc_vault false true,
       AccountMeta.mk m.vault_signer false false,
       AccountMeta.mk m.coin_wallet false true,
       AccountMeta.mk authority true false,
       AccountMeta.mk pc_wallet false true,
       AccountMeta.mk dex_program_id false false,
       AccountMeta.mk spl_token_id false false,
       AccountMeta.mk spl_token_id false false] ∧
    (swap swap_program_id dex_program_id authority pc_wallet m amount side rate
        from_decimals).data.take 9 = swapSighash ++ [sideByte side] :=
  ⟨rfl, rfl⟩

/-- Claim C2: `swap` exposes no `quote_decimals` or `strict` parameter, and
the exchange-rate constraint in its emitted payload always carries
`quote_decimals` byte 0 and `strict` byte 0 (false), while the side tag,
amount, rate and `from_decimals` bytes are the caller's arguments
verbatim. -/
theorem swap_payload_constraint (swap_program_id dex_program_id authority pc_wallet : Pubkey)
    (m : MarketAccounts) (amount : Nat) (side : Side) (rate from_decimals : Nat)
    (h : from_decimals < 256) :
    (swap swap_program_id dex_program_id authority pc_wallet m amount side rate
        from_decimals).data =
      swapSighash ++ sideByte side :: (u64le amount ++ (u64le rate ++ [from_decimals, 0, 0])) := by
  simp [swap, swapData, exchangeRateBytes, u8byte, boolByte, Nat.mod_eq_of_lt h]

/-- Witness for `swap_payload_constraint` at a concrete input. -/
theorem swap_payload_constraint_witness :
    (swap 1 2 3 4 ⟨5, 6, 7, 8, 9, 10, 11, 12, 13, 14, 15⟩ 1 Side.Ask 2 3).data =
      swapSighash ++ sideByte Side.Ask :: (u64le 1 ++ (u64le 2 ++ [3, 0, 0])) :=
  swap_payload_constraint 1 2 3 4 ⟨5, 6, 7, 8, 9, 10, 11, 12, 13, 14, 15⟩ 1 Side.Ask 2 3
    (by decide)

/-- Claim C3: `swap_transitive`'s account list is the full 11-entry
single-market block for the `from` market, the identically shaped block for
the `to` market (so exactly double the single-market block length), then
the trailing shared accounts (authority as read-only signer, quote wallet,
exchange program id, token program id twice in this generation); its
payload echoes the amount and all four caller-supplied exchange-rate
fields verbatim after the discriminant. -/
theorem swap_transitive_blocks_and_payload
    (swap_program_id dex_program_id authority pc_wallet : Pubkey) (f t : MarketAccounts)
    (amount rate from_decimals quote_decimals : Nat) (strict : Bool)
    (hf : from_decimals < 256) (hq : quote_decimals < 256) :
    (swap_transitive swap_program_id dex_program_id authority pc_wallet f t amount rate
        from_decimals quote_decimals strict).accounts =
      marketBlock f ++ marketBlock t ++
        [AccountMeta.mk authority true false,
         AccountMeta.mk pc_wallet false true,
         AccountMeta.mk dex_program_id false false,
         AccountMeta.mk spl_token_id false false,
         AccountMeta.mk spl_token_id false false] ∧
    (swap_transitive swap_program_id dex_program_id authority pc_wallet f t amount rate
        from_decimals quote_decimals strict).accounts.length =
      2 * (marketBlock f).length + 5 ∧
    (swap_transitive swap_program_id dex_program_id authority pc_wallet f t amount rate
        from_decimals quote_decimals strict).data =
      swapTransitiveSighash ++
        (u64le amount ++ (u64le rate ++ [from_decimals, quote_decimals, boolByte strict])) := by
  refine ⟨rfl, rfl, ?_⟩
  simp [swap_transitive, swapTransitiveData, exchangeRateBytes, u8byte,
    Nat.mod_eq_of_lt hf, Nat.mod_eq_of_lt hq]

/-- Witness for `swap_transitive_blocks_and_payload` at a concrete
input. -/
theorem swap_transitive_blocks_and_payload_witness :
    (swap_transitive 1 2 3 4 ⟨5, 6, 7, 8, 9, 10, 11, 12, 13, 14, 15⟩
        ⟨16, 17, 18, 19, 20, 21, 22, 23, 24, 25, 26⟩ 1 2 3 4 true).accounts =
      marketBlock ⟨5, 6, 7, 8, 9, 10, 11, 12, 13, 14, 15⟩ ++
        marketBlock ⟨16, 17, 18, 19, 20, 21, 22, 23, 24, 25, 26⟩ ++
        [AccountMeta.mk 3 true false,
         AccountMeta.mk 4 false true,
         AccountMeta.mk 2 false false,
         AccountMeta.mk spl_token_id false false,
         AccountMeta.mk spl_token_id false false] ∧
    (swap_transitive 1 2 3 4 ⟨5, 6, 7, 8, 9, 10, 11, 12, 13, 14, 15⟩
        ⟨16, 17, 18, 19, 20, 21, 22, 23, 24, 25, 26⟩ 1 2 3 4 true).accounts.length =
      2 * (marketBlock ⟨5, 6, 7, 8, 9, 10, 11, 12, 13, 14, 15⟩).length + 5 ∧
    (swap_transitive 1 2 3 4 ⟨5, 6, 7, 8, 9, 10, 11, 12, 13, 14, 15⟩
        ⟨16, 17, 18, 19, 20, 21, 22, 23, 24, 25, 26⟩ 1 2 3 4 true).data =
      swapTransitiveSighash ++ (u64le 1 ++ (u64le 2 ++ [3, 4, boolByte true])) :=
  swap_transitive_blocks_and_payload 1 2 3 4 ⟨5, 6, 7, 8, 9, 10, 11, 12, 13, 14, 15⟩
    ⟨16, 17, 18, 19, 20, 21, 22, 23, 24, 25, 26⟩ 1 2 3 4 true (by decide) (by decide)

/-- Claim C9: with every address the same unique test key and amount 1,
side Ask, rate 2, from_decimals 3, `swap`'s serialized payload is the fixed
discriminant [248, 198, 158, 145, 225, 117, 135, 200], the side tag byte 1,
the little-endian u64 1, the little-endian u64 2, then byte 3 (followed by
the hard-coded quote_decimals 0 and strict 0 bytes), reproducing the
repository's `serialize_instruction` test vector. -/
theorem swap_serialization_fixture :
    (swap 9 9 9 9 ⟨9, 9, 9, 9, 9, 9, 9, 9, 9, 9, 9⟩ 1 Side.Ask 2 3).data =
      [248, 198, 158, 145, 225, 117, 135, 200,
       1,
       1, 0, 0, 0, 0, 0, 0, 0,
       2, 0, 0, 0, 0, 0, 0, 0,
       3, 0, 0] := by
  decide

/-- Claim C10: in every instruction produced by `init_account`, `swap`,
`swap_transitive` and `close_account`, the account references carrying the
signer flag are exactly one — the authority reference — and that reference
is read-only; every other reference has the signer flag cleared. -/
theorem authority_sole_signer
    (swap_program_id dex_program_id authority market open_orders destination pc_wallet : Pubkey)
    (f t : MarketAccounts) (amount rate from_decimals quote_decimals : Nat) (side : Side)
    (strict : Bool) :
    (init_account swap_program_id dex_program_id authority market open_orders).accounts.filter
        (fun a => a.is_signer) = [AccountMeta.mk authority true false] ∧
    (swap swap_program_id dex_program_id authority pc_wallet f amount side rate
        from_decimals).accounts.filter (fun a => a.is_signer) =
      [AccountMeta.mk authority true false] ∧
    (swap_transitive swap_program_id dex_program_id authority pc_wallet f t amount rate
        from_decimals quote_decimals strict).accounts.filter (fun a => a.is_signer) =
      [AccountMeta.mk authority true false] ∧
    (close_account swap_program_id dex_program_id authority market open_orders
        destination).accounts.filter (fun a => a.is_signer) =
      [AccountMeta.mk authority true false] :=
  ⟨rfl, rfl, rfl, rfl⟩

end Instr

namespace Mkt

/-- The `Error` enum of src/market.rs (lines 16–44).  `ClientError` is
omitted: the ledger fetch is an external collaborator and its bytes are
taken as input here.  `DexError` and `ProgramError` carry their payloads in
Rust only for display; the claims never inspect them. -/
inductive Error where
  | DexError
  | ProgramError
  | AccountLengthTooSmall (len : Nat)
  | HeadPaddingMismatch
  | TailPaddingMismatch
  | TransmuteGuard
  | TransmuteInvalidValue
  | TransmuteOther
  deriving DecidableEq

/-- Result of running Rust code that can return `Ok`, return `Err`, or
panic (out-of-range slicing, `assert_eq!`). -/
inductive Outcome (α : Type) where
  | ok (value : α)
  | err (e : Error)
  | panic
  deriving DecidableEq

/-- `serum_dex::state::ACCOUNT_HEAD_PADDING = b"serum"`: the head-padding
magic constant the decoder compares against (a fixed external-ABI byte
sequence; the claims depend only on it being a fixed 5-byte constant). -/
def ACCOUNT_HEAD_PADDING : List Nat := [115, 101, 114, 117, 109]

/-- `serum_dex::state::ACCOUNT_TAIL_PADDING = b"padding"`: the tail-padding
magic constant (fixed external-ABI 7-byte sequence). -/
def ACCOUNT_TAIL_PADDING : List Nat := [112, 97, 100, 100, 105, 110, 103]

/-- Reinterpretation of a little-endian byte sequence as 8-byte words, the
pure content of `transmute_many_pedantic::<u64>` after alignment is
resolved by copying.  On a length that is not a multiple of 8 the trailing
fragment is unreachable (the caller checks divisibility first). -/
def bytesToWords : List Nat → List Nat
  | b0 :: b1 :: b2 :: b3 :: b4 :: b5 :: b6 :: b7 :: rest =>
      leWord [b0, b1, b2, b3, b4, b5, b6, b7] :: bytesToWords rest
  | _ => []

/-- `remove_dex_account_padding` (src/market.rs lines 140–161).  The Rust
function slices `&data[..ACCOUNT_HEAD_PADDING.len()]` *before* the length
check, so a buffer shorter than the head padding panics with an
out-of-range slice instead of reaching the `AccountLengthTooSmall` return;
the `panic` branch records that.  `transmute_many_pedantic` fails on an
interior length that is not a multiple of 8, and the recovery
`transmute_error.copy()` fails for the same reason (copying resolves only
misalignment), surfacing the guard error. -/
def remove_dex_account_padding (data : List Nat) : Outcome (List Nat) :=
  if data.length < ACCOUNT_HEAD_PADDING.length then
    Outcome.panic
  else
    let head := data.take ACCOUNT_HEAD_PADDING.length
    if data.length < ACCOUNT_HEAD_PADDING.length + ACCOUNT_TAIL_PADDING.length then
      Outcome.err (Error.AccountLengthTooSmall data.length)
    else if head ≠ ACCOUNT_HEAD_PADDING then
      Outcome.err Error.HeadPaddingMismatch
    else
      let tail := data.drop (data.length - ACCOUNT_TAIL_PADDING.length)
      if tail ≠ ACCOUNT_TAIL_PADDING then
        Outcome.err Error.TailPaddingMismatch
      else
        let inner :=
          (data.drop ACCOUNT_HEAD_PADDING.length).take
            (data.length - ACCOUNT_HEAD_PADDING.length - ACCOUNT_TAIL_PADDING.length)
        if inner.length % 8 = 0 then Outcome.ok (bytesToWords inner)
        else Outcome.err Error.TransmuteGuard

/-- `serum_dex::state::MarketState`: the V1 fixed-layout market record, 47
little-endian 8-byte words.  Modelled from the spec: the record layout
itself lives in the dex dependency, not under src/; §3 fixes its field
list (account-flags word, own address, vault-signer nonce, mint addresses,
vault addresses, request/event queue addresses, bid/ask book addresses,
fee-related fields) and the word offsets below follow that fixed ABI
layout.  32-byte address fields are held as their four words. -/
structure MarketState where
  account_flags : Nat
  own_address : List Nat
  vault_signer_nonce : Nat
  coin_mint : List Nat
  pc_mint : List Nat
  coin_vault : List Nat
  coin_deposits_total : Nat
  coin_fees_accrued : Nat
  pc_vault : List Nat
  pc_deposits_total : Nat
  pc_fees_accrued : Nat
  pc_dust_threshold : Nat
  req_q : List Nat
  event_q : List Nat
  bids : List Nat
  asks : List Nat
  coin_lot_size : Nat
  pc_lot_size : Nat
  fee_rate_bps : Nat
  referrer_rebates_accrued : Nat
  deriving DecidableEq

/-- `serum_dex::state::MarketStateV2`: V1's layout plus the appended
permissioned-market extension (authority fields).  Modelled from the spec:
"V2 is structurally a superset: its leading sub-record is byte-identical to
V1". -/
structure MarketStateV2 where
  inner : MarketState
  open_orders_authority : List Nat
  prune_authority : List Nat
  consume_events_authority : List Nat
  deriving DecidableEq

/-- Number of 8-byte words in a `MarketState` record (its exact transmute
size).  Modelled from the spec: "V1 and V2 record sizes are fixed constants
of the exchange program's ABI"; 47 words = 376 bytes is the V1 record. -/
def MARKET_STATE_WORDS : Nat := 47

/-- Number of 8-byte words in a `MarketStateV2` record: the V1 record plus
the three appended 32-byte authority fields.  Modelled from the spec, as
for `MARKET_STATE_WORDS`; the claims depend only on it being a fixed
constant distinct from (and larger than) the V1 size. -/
def MARKET_STATE_V2_WORDS : Nat := 59

/-- Words `i ..< i + n` of a word sequence. -/
def wslice (ws : List Nat) (i n : Nat) : List Nat := (ws.drop i).take n

/-- The byte-for-byte reinterpretation of an exactly-sized word sequence as
a `MarketState` (`transmute_one_pedantic::<MarketState>` after the size
check): each field read at its fixed word offset. -/
def parseMarketState (ws : List Nat) : MarketState :=
  { account_flags := ws.getD 0 0
    own_address := wslice ws 1 4
    vault_signer_nonce := ws.getD 5 0
    coin_mint := wslice ws 6 4
    pc_mint := wslice ws 10 4
    coin_vault := wslice ws 14 4
    coin_deposits_total := ws.getD 18 0
    coin_fees_accrued := ws.getD 19 0
    pc_vault := wslice ws 20 4
    pc_deposits_total := ws.getD 24 0
    pc_fees_accrued := ws.getD 25 0
    pc_dust_threshold := ws.getD 26 0
    req_q := wslice ws 27 4
    event_q := wslice ws 31 4
    bids := wslice ws 35 4
    asks := wslice ws 39 4
    coin_lot_size := ws.getD 43 0
    pc_lot_size := ws.getD 44 0
    fee_rate_bps := ws.getD 45 0
    referrer_rebates_accrued := ws.getD 46 0 }

/-- The reinterpretation of an exactly-sized word sequence as a
`MarketStateV2`: the leading V1 sub-record plus the appended authority
fields. -/
def parseMarketStateV2 (ws : List Nat) : MarketStateV2 :=
  { inner := parseMarketState ws
    open_orders_authority := wslice ws 47 4
    prune_authority := wslice ws 51 4
    consume_events_authority := wslice ws 55 4 }

/-- The bit index of `AccountFlag::Permissioned` in the account-flags word.
Modelled from the spec: version "is inferred from a bit in the
account-flags word"; the flag enum (Initialized, Market, OpenOrders,
RequestQueue, EventQueue, Bids, Asks, Disabled, Closed, Permissioned,
CrankAuthorityRequired) places Permissioned at bit 9. -/
def PERMISSIONED_BIT : Nat := 9

/-- `serum_dex`'s `Market::account_flags(account_data)`.  Modelled from the
spec: it "reads the account-flags word (first word)" — the 8-byte
little-endian word directly after the head padding — and a flags value
outside the valid domain (a bit beyond the 11 known flags) is an
invalid-discriminant fault. -/
def account_flags (account_data : List Nat) : Except Error Nat :=
  if account_data.length < ACCOUNT_HEAD_PADDING.length + 8 then
    Except.error Error.DexError
  else
    let w := leWord ((account_data.drop ACCOUNT_HEAD_PADDING.length).take 8)
    if w < 2 ^ 11 then Except.ok w else Except.error Error.DexError

/-- The `Market` enum of src/market.rs (lines 56–59). -/
inductive Market where
  | V1 (state : MarketState)
  | V2 (state : MarketStateV2)
  deriving DecidableEq

/-- The `Deref` impl of src/market.rs (lines 96–105): both variants expose
the shared `MarketState` view. -/
def Market.state : Market → MarketState
  | Market.V1 v1 => v1
  | Market.V2 v2 => v2.inner

/-- `Market::deserialize` (src/market.rs lines 62–75): strip padding, read
the account-flags word, and route on the Permissioned bit to an
exact-size reinterpretation as V2 or V1 (`transmute_one_pedantic` rejects
any word sequence whose byte length differs from the target record's
size). -/
def Market.deserialize (account_data : List Nat) : Outcome Market :=
  match remove_dex_account_padding account_data with
  | Outcome.panic => Outcome.panic
  | Outcome.err e => Outcome.err e
  | Outcome.ok words =>
    match account_flags account_data with
    | Except.error e => Outcome.err e
    | Except.ok flags =>
      if flags.testBit PERMISSIONED_BIT then
        if words.length = MARKET_STATE_V2_WORDS then
          Outcome.ok (Market.V2 (parseMarketStateV2 words))
        else Outcome.err Error.TransmuteGuard
      else
        if words.length = MARKET_STATE_WORDS then
          Outcome.ok (Market.V1 (parseMarketState words))
        else Outcome.err Error.TransmuteGuard

/-- `transmute_to_bytes` on a stored 4-word address field: its 32
little-endian bytes. -/
def wordsToBytes : List Nat → List Nat
  | [] => []
  | w :: ws => u64le w ++ wordsToBytes ws

/-- The `MarketPubkeys` record of src/market.rs (lines 116–128); addresses
as 32-byte sequences. -/
structure MarketPubkeys where
  market : List Nat
  request_queue : List Nat
  event_queue : List Nat
  bids : List Nat
  asks : List Nat
  coin_mint : List Nat
  coin_vault : List Nat
  pc_mint : List Nat
  pc_vault : List Nat
  vault_signer : List Nat
  deriving DecidableEq

/-- `Market::pubkeys` (src/market.rs lines 77–93).  The vault-signer
derivation `gen_vault_signer_key` is an external collaborator primitive
(deterministic, nonce + market + program id → address, bounded failure); it
is taken as a function argument, with its fault already mapped into this
component's error type. -/
def Market.pubkeys (gen_vault_signer_key : Nat → List Nat → List Nat → Except Error (List Nat))
    (self : Market) (dex_program_id : List Nat) : Except Error MarketPubkeys :=
  let s := self.state
  let market := wordsToBytes s.own_address
  match gen_vault_signer_key s.vault_signer_nonce market dex_program_id with
  | Except.error e => Except.error e
  | Except.ok vault_signer =>
    Except.ok
      { market := market
        request_queue := wordsToBytes s.req_q
        event_queue := wordsToBytes s.event_q
        bids := wordsToBytes s.bids
        asks := wordsToBytes s.asks
        coin_mint := wordsToBytes s.coin_mint
        coin_vault := wordsToBytes s.coin_vault
        pc_mint := wordsToBytes s.pc_mint
        pc_vault := wordsToBytes s.pc_vault
        vault_signer := vault_signer }

/-- `MarketState::check_flags`, called by `get_market_keys`.  Modelled from
the spec: it "checks the decoded record's internal account flags against an
expected initialized/non-disabled state" — a V1 record must carry exactly
Initialized|Market (bits 0 and 1: value 3), a V2 record additionally the
Permissioned bit (value 515) and optionally CrankAuthorityRequired
(value 1539). -/
def Market.check_flags : Market → Except Error Unit
  | Market.V1 s =>
      if s.account_flags = 3 then Except.ok () else Except.error Error.DexError
  | Market.V2 v =>
      if v.inner.account_flags = 515 ∨ v.inner.account_flags = 1539 then Except.ok ()
      else Except.error Error.DexError

/-- Embedding of an `Except` result into `Outcome`. -/
def outcomeOfExcept : Except Error α → Outcome α
  | Except.ok a => Outcome.ok a
  | Except.error e => Outcome.err e

/-- `get_market_keys` (src/market.rs lines 130–138).  The `RpcClient` fetch
is the external ledger collaborator; the fetched `account_data` bytes are
taken as input.  The Rust `assert_eq!` comparing the record's own recorded
address with the address the caller fetched under panics on mismatch,
recorded by the `panic` outcome. -/
def get_market_keys (gen_vault_signer_key : Nat → List Nat → List Nat → Except Error (List Nat))
    (account_data : List Nat) (dex_program_id : List Nat) (market : List Nat) :
    Outcome MarketPubkeys :=
  match Market.deserialize account_data with
  | Outcome.panic => Outcome.panic
  | Outcome.err e => Outcome.err e
  | Outcome.ok market_state =>
    match market_state.check_flags with
    | Except.error e => Outcome.err e
    | Except.ok _ =>
      if wordsToBytes market_state.state.own_address = market then
        outcomeOfExcept (market_state.pubkeys gen_vault_signer_key dex_program_id)
      else Outcome.panic

/-- The decode pipeline of §8's purity property: `classify_and_parse`
(`Market::deserialize`) followed by `derive_pubkeys` (`Market::pubkeys`),
with errors and panics collapsed to `none`. -/
def decode_and_derive (gen_vault_signer_key : Nat → List Nat → List Nat → Except Error (List Nat))
    (account_data : List Nat) (dex_program_id : List Nat) : Option MarketPubkeys :=
  match Market.deserialize account_data with
  | Outcome.ok m =>
    match m.pubkeys gen_vault_signer_key dex_program_id with
    | Except.ok pks => some pks
    | Except.error _ => none
  | Outcome.err _ => none
  | Outcome.panic => none

/-- Reinterpreting bytes as 8-byte words yields one word per full 8-byte
chunk. -/
theorem bytesToWords_length : ∀ l : List Nat, (bytesToWords l).length = l.length / 8
  | b0 :: b1 :: b2 :: b3 :: b4 :: b5 :: b6 :: b7 :: rest => by
      simp only [bytesToWords, List.length_cons, bytesToWords_length rest]
      omega
  | [] => by simp [bytesToWords]
  | [b0] => by simp [bytesToWords]
  | [b0, b1] => by simp [bytesToWords]
  | [b0, b1, b2] => by simp [bytesToWords]
  | [b0, b1, b2, b3] => by simp [bytesToWords]
  | [b0, b1, b2, b3, b4] => by simp [bytesToWords]
  | [b0, b1, b2, b3, b4, b5] => by simp [bytesToWords]
  | [b0, b1, b2, b3, b4, b5, b6] => by simp [bytesToWords]

/-- A well-formed padding envelope strips to the reinterpreted interior
words. -/
theorem remove_padding_append (p : List Nat) (h8 : p.length % 8 = 0) :
    remove_dex_account_padding (ACCOUNT_HEAD_PADDING ++ p ++ ACCOUNT_TAIL_PADDING) =
      Outcome.ok (bytesToWords p) := by
  have hH : ACCOUNT_HEAD_PADDING.length = 5 := rfl
  have hT : ACCOUNT_TAIL_PADDING.length = 7 := rfl
  have hlen : (ACCOUNT_HEAD_PADDING ++ p ++ ACCOUNT_TAIL_PADDING).length = p.length + 12 := by
    simp [List.length_append, hH, hT]; omega
  have hHP : (ACCOUNT_HEAD_PADDING ++ p).length = p.length + 5 := by
    simp [List.length_append, hH]; omega
  have htake : (ACCOUNT_HEAD_PADDING ++ p ++ ACCOUNT_TAIL_PADDING).take
      ACCOUNT_HEAD_PADDING.length = ACCOUNT_HEAD_PADDING := by
    rw [List.append_assoc]
    exact List.take_left' rfl
  have hdropT : (ACCOUNT_HEAD_PADDING ++ p ++ ACCOUNT_TAIL_PADDING).drop
      (p.length + 12 - ACCOUNT_TAIL_PADDING.length) = ACCOUNT_TAIL_PADDING := by
    refine List.drop_left' ?_
    rw [hHP, hT]; omega
  have hdropH : (ACCOUNT_HEAD_PADDING ++ p ++ ACCOUNT_TAIL_PADDING).drop
      ACCOUNT_HEAD_PADDING.length = p ++ ACCOUNT_TAIL_PADDING := by
    rw [List.append_assoc]
    exact List.drop_left' rfl
  have hinner : ((ACCOUNT_HEAD_PADDING ++ p ++ ACCOUNT_TAIL_PADDING).drop
      ACCOUNT_HEAD_PADDING.length).take
      (p.length + 12 - ACCOUNT_HEAD_PADDING.length - ACCOUNT_TAIL_PADDING.length) = p := by
    rw [hdropH, hH, hT]
    have : p.length + 12 - 5 - 7 = p.length := by omega
    rw [this]
    exact List.take_left' rfl
  rw [remove_dex_account_padding]
  rw [hlen, htake, hH, hT]
  rw [if_neg (by omega), if_neg (by omega), if_neg (by simp)]
  rw [show p.length + 12 - 7 = p.length + 12 - ACCOUNT_TAIL_PADDING.length from by rw [hT]]
  rw [hdropT, if_neg (by simp)]
  rw [show p.length + 12 - 5 - 7 =
        p.length + 12 - ACCOUNT_HEAD_PADDING.length - ACCOUNT_TAIL_PADDING.length from by
      rw [hH, hT]]
  rw [show (ACCOUNT_HEAD_PADDING ++ p ++ ACCOUNT_TAIL_PADDING).drop 5 =
        (ACCOUNT_HEAD_PADDING ++ p ++ ACCOUNT_TAIL_PADDING).drop ACCOUNT_HEAD_PADDING.length
      from by rw [hH]]
  rw [hinner, if_pos h8]

/-- Under a well-formed padding envelope, the account-flags word is the
little-endian value of the interior's first 8 bytes. -/
theorem account_flags_append (p : List Nat) (hlen : 8 ≤ p.length)
    (hdom : leWord (p.take 8) < 2 ^ 11) :
    account_flags (ACCOUNT_HEAD_PADDING ++ p ++ ACCOUNT_TAIL_PADDING) =
      Except.ok (leWord (p.take 8)) := by
  have hH : ACCOUNT_HEAD_PADDING.length = 5 := rfl
  have hdropH : (ACCOUNT_HEAD_PADDING ++ p ++ ACCOUNT_TAIL_PADDING).drop
      ACCOUNT_HEAD_PADDING.length = p ++ ACCOUNT_TAIL_PADDING := by
    rw [List.append_assoc]
    exact List.drop_left' rfl
  have htake8 : (p ++ ACCOUNT_TAIL_PADDING).take 8 = p.take 8 :=
    List.take_append_of_le_length hlen
  rw [account_flags, hdropH, htake8]
  rw [if_neg (by simp [List.length_append, hH]; omega), if_pos hdom]

/-- A V2-sized interior payload whose flags word is
Initialized|Market|Permissioned (515): 59 words = 472 bytes. -/
def pV2test : List Nat := u64le 515 ++ List.replicate 464 0

/-- A V1-sized interior payload whose flags word is Initialized|Market (3):
47 words = 376 bytes. -/
def testInterior : List Nat := u64le 3 ++ List.replicate 368 0

/-- A well-formed V1 market account buffer: head padding, `testInterior`,
tail padding (388 bytes, the V1 account size). -/
def testBuffer : List Nat := ACCOUNT_HEAD_PADDING ++ testInterior ++ ACCOUNT_TAIL_PADDING

/-- A deterministic stand-in for the external `gen_vault_signer_key`
collaborator, honoring its contract (a pure function of nonce, market and
program id). -/
def testGvs : Nat → List Nat → List Nat → Except Error (List Nat) :=
  fun _ _ _ => Except.ok (List.replicate 32 0)

/-- The market record decoded from `testBuffer`. -/
def testMarketState : Market := Market.V1 (parseMarketState (bytesToWords testInterior))

/-- 32 zero bytes: every address field of `testBuffer`'s record. -/
def z32 : List Nat := List.replicate 32 0

/-- The pubkeys view derived from `testBuffer` under `testGvs`. -/
def testPubkeys : MarketPubkeys := ⟨z32, z32, z32, z32, z32, z32, z32, z32, z32, z32⟩

/-- Claim C4: for every interior payload that passes padding stripping (and
whose flags word is in the valid domain), deserialization routes on the
Permissioned bit of the flags word: bit set with a V2-sized payload decodes
to the V2 variant, bit clear with a V1-sized payload decodes to the V1
variant, and a payload whose byte length differs from the selected record's
exact size fails with the transmute (reinterpretation) fault rather than
being truncated or zero-padded. -/
theorem deserialize_version_dispatch (p : List Nat) (h8 : p.length % 8 = 0)
    (hlen : 8 ≤ p.length) (hdom : leWord (p.take 8) < 2 ^ 11) :
    ((leWord (p.take 8)).testBit PERMISSIONED_BIT = true →
       (p.length = 8 * MARKET_STATE_V2_WORDS →
          Market.deserialize (ACCOUNT_HEAD_PADDING ++ p ++ ACCOUNT_TAIL_PADDING) =
            Outcome.ok (Market.V2 (parseMarketStateV2 (bytesToWords p)))) ∧
       (p.length ≠ 8 * MARKET_STATE_V2_WORDS →
          Market.deserialize (ACCOUNT_HEAD_PADDING ++ p ++ ACCOUNT_TAIL_PADDING) =
            Outcome.err Error.TransmuteGuard)) ∧
    ((leWord (p.take 8)).testBit PERMISSIONED_BIT = false →
       (p.length = 8 * MARKET_STATE_WORDS →
          Market.deserialize (ACCOUNT_HEAD_PADDING ++ p ++ ACCOUNT_TAIL_PADDING) =
            Outcome.ok (Market.V1 (parseMarketState (bytesToWords p)))) ∧
       (p.length ≠ 8 * MARKET_STATE_WORDS →
          Market.deserialize (ACCOUNT_HEAD_PADDING ++ p ++ ACCOUNT_TAIL_PADDING) =
            Outcome.err Error.TransmuteGuard)) := by
  have hrm := remove_padding_append p h8
  have haf := account_flags_append p hlen hdom
  have hwl : (bytesToWords p).length = p.length / 8 := bytesToWords_length p
  constructor
  · intro hbit
    constructor
    · intro hsz
      have hw : (bytesToWords p).length = MARKET_STATE_V2_WORDS := by
        rw [hwl]
        simp only [MARKET_STATE_V2_WORDS] at hsz ⊢
        omega
      simp only [Market.deserialize, hrm, haf, hbit, if_true, if_pos hw]
    · intro hsz
      have hw : (bytesToWords p).length ≠ MARKET_STATE_V2_WORDS := by
        rw [hwl]
        simp only [MARKET_STATE_V2_WORDS] at hsz ⊢
        omega
      simp only [Market.deserialize, hrm, haf, hbit, if_true, if_neg hw]
  · intro hbit
    constructor
    · intro hsz
      have hw : (bytesToWords p).length = MARKET_STATE_WORDS := by
        rw [hwl]
        simp only [MARKET_STATE_WORDS] at hsz ⊢
        omega
      simp only [Market.deserialize, hrm, haf, hbit, Bool.false_eq_true, if_false, if_pos hw]
    · intro hsz
      have hw : (bytesToWords p).length ≠ MARKET_STATE_WORDS := by
        rw [hwl]
        simp only [MARKET_STATE_WORDS] at hsz ⊢
        omega
      simp only [Market.deserialize, hrm, haf, hbit, Bool.false_eq_true, if_false, if_neg hw]

/-- Witness for `deserialize_version_dispatch`: the Permissioned bit set on
a V2-sized payload routes decoding to the V2 variant. -/
theorem deserialize_version_dispatch_witness :
    Market.deserialize (ACCOUNT_HEAD_PADDING ++ pV2test ++ ACCOUNT_TAIL_PADDING) =
      Outcome.ok (Market.V2 (parseMarketStateV2 (bytesToWords pV2test))) :=
  ((deserialize_version_dispatch pV2test (by decide) (by decide) (by decide)).1
    (by decide)).1 (by decide)

/-- Claim C5, code-bug evidence: a buffer shorter than the head padding
panics (the Rust code slices `&data[..ACCOUNT_HEAD_PADDING.len()]` before
its length check) instead of returning `AccountLengthTooSmall`; a buffer at
least head-long but shorter than head + tail does return the
length-too-small fault before any padding comparison (the 11-byte zero
buffer has mismatching head bytes yet does not report a padding
mismatch). -/
theorem short_buffer_behavior :
    Market.deserialize [] = Outcome.panic ∧
    (List.replicate 11 0).take ACCOUNT_HEAD_PADDING.length ≠ ACCOUNT_HEAD_PADDING ∧
    Market.deserialize (List.replicate 11 0) =
      Outcome.err (Error.AccountLengthTooSmall 11) := by
  decide

/-- Counterexample to claim C6 as stated: an 11-byte buffer of ones has
head bytes differing from the magic constant, yet decoding fails with
`AccountLengthTooSmall 11`, not `HeadPaddingMismatch` — the length check
precedes the head comparison. -/
theorem head_mismatch_counterexample :
    (List.replicate 11 1).take ACCOUNT_HEAD_PADDING.length ≠ ACCOUNT_HEAD_PADDING ∧
    Market.deserialize (List.replicate 11 1) =
      Outcome.err (Error.AccountLengthTooSmall 11) ∧
    Market.deserialize (List.replicate 11 1) ≠ Outcome.err Error.HeadPaddingMismatch := by
  decide

/-- Claim C6 as amended: for every buffer long enough to pass the length
check (at least head-length + tail-length bytes) whose first
head-padding-length bytes differ from the magic constant, decoding fails
with `HeadPaddingMismatch` and with no other fault — in particular not the
tail-mismatch fault, even if the tail bytes also differ. -/
theorem head_mismatch_fault (data : List Nat)
    (hlen : ACCOUNT_HEAD_PADDING.length + ACCOUNT_TAIL_PADDING.length ≤ data.length)
    (hhead : data.take ACCOUNT_HEAD_PADDING.length ≠ ACCOUNT_HEAD_PADDING) :
    Market.deserialize data = Outcome.err Error.HeadPaddingMismatch := by
  have h5 : ACCOUNT_HEAD_PADDING.length = 5 := rfl
  have h7 : ACCOUNT_TAIL_PADDING.length = 7 := rfl
  rw [h5, h7] at hlen
  have hrm : remove_dex_account_padding data = Outcome.err Error.HeadPaddingMismatch := by
    simp only [remove_dex_account_padding, h5, h7]
    rw [h5] at hhead
    rw [if_neg (by omega), if_neg (by omega), if_pos hhead]
  simp only [Market.deserialize, hrm]

/-- Witness for `head_mismatch_fault`: a 12-byte zero buffer (whose tail
also mismatches) fails with exactly the head-mismatch fault. -/
theorem head_mismatch_fault_witness :
    Market.deserialize (List.replicate 12 0) = Outcome.err Error.HeadPaddingMismatch :=
  head_mismatch_fault (List.replicate 12 0) (by decide) (by decide)

/-- Claim C7: whenever the buffer decodes to a record that passes the flags
check, `get_market_keys` asserts that the record's own recorded address
equals the address the caller fetched the buffer under: on mismatch it
panics (assertion-grade failure — it never returns a `MarketPubkeys` and
never downgrades to a warning), and when the addresses agree the assertion
passes and the derived pubkeys are returned. -/
theorem own_address_assertion
    (gvs : Nat → List Nat → List Nat → Except Error (List Nat))
    (account_data dex_program_id market : List Nat) (m : Market)
    (h1 : Market.deserialize account_data = Outcome.ok m)
    (h2 : m.check_flags = Except.ok ()) :
    (wordsToBytes m.state.own_address ≠ market →
       get_market_keys gvs account_data dex_program_id market = Outcome.panic) ∧
    (wordsToBytes m.state.own_address = market →
       get_market_keys gvs account_data dex_program_id market =
         outcomeOfExcept (m.pubkeys gvs dex_program_id)) := by
  constructor
  · intro hne
    simp only [get_market_keys, h1, h2, if_neg hne]
  · intro heq
    simp only [get_market_keys, h1, h2, if_pos heq]

/-- Witness for `own_address_assertion`: the zero-addressed test record
fetched under a non-zero address panics, and fetched under its own address
returns the derived pubkeys. -/
theorem own_address_assertion_witness :
    get_market_keys testGvs testBuffer [] (1 :: List.replicate 31 0) = Outcome.panic ∧
    get_market_keys testGvs testBuffer [] z32 =
      outcomeOfExcept (testMarketState.pubkeys testGvs []) :=
  ⟨(own_address_assertion testGvs testBuffer [] (1 :: List.replicate 31 0) testMarketState
      rfl rfl).1 (by decide),
   (own_address_assertion testGvs testBuffer [] z32 testMarketState
      rfl rfl).2 (by decide)⟩

/-- Claim C8: on a valid V1-shaped buffer with correct padding, decoding
followed by pubkey derivation is deterministic — two runs on identical
bytes and program id (with the deterministic external vault-signer
collaborator fixed) yield field-for-field identical `MarketPubkeys`. -/
theorem decode_derive_deterministic
    (gvs : Nat → List Nat → List Nat → Except Error (List Nat))
    (account_data dex_program_id : List Nat) (s : MarketState) (p1 p2 : MarketPubkeys)
    (hV1 : Market.deserialize account_data = Outcome.ok (Market.V1 s))
    (h1 : decode_and_derive gvs account_data dex_program_id = some p1)
    (h2 : decode_and_derive gvs account_data dex_program_id = some p2) :
    p1.market = p2.market ∧ p1.request_queue = p2.request_queue ∧
    p1.event_queue = p2.event_queue ∧ p1.bids = p2.bids ∧ p1.asks = p2.asks ∧
    p1.coin_mint = p2.coin_mint ∧ p1.coin_vault = p2.coin_vault ∧
    p1.pc_mint = p2.pc_mint ∧ p1.pc_vault = p2.pc_vault ∧
    p1.vault_signer = p2.vault_signer := by
  have hp : p1 = p2 := Option.some.inj (h1.symm.trans h2)
  subst hp
  exact ⟨rfl, rfl, rfl, rfl, rfl, rfl, rfl, rfl, rfl, rfl⟩

/-- Witness for `decode_derive_deterministic` on the concrete valid V1
buffer. -/
theorem decode_derive_deterministic_witness :
    testPubkeys.market = testPubkeys.market ∧
    testPubkeys.request_queue = testPubkeys.request_queue ∧
    testPubkeys.event_queue = testPubkeys.event_queue ∧
    testPubkeys.bids = testPubkeys.bids ∧ testPubkeys.asks = testPubkeys.asks ∧
    testPubkeys.coin_mint = testPubkeys.coin_mint ∧
    testPubkeys.coin_vault = testPubkeys.coin_vault ∧
    testPubkeys.pc_mint = testPubkeys.pc_mint ∧
    testPubkeys.pc_vault = testPubkeys.pc_vault ∧
    testPubkeys.vault_signer = testPubkeys.vault_signer :=
  decode_derive_deterministic testGvs testBuffer []
    (parseMarketState (bytesToWords testInterior)) testPubkeys testPubkeys
    rfl (by decide) (by decide)

end Mkt

end SerumRs
